import Mathlib

/-!
Shallow embedding of the `med_qrng` Rust library (src/lib.rs): a COM
automation binding for a hardware quantum random number generator.

The external COM world (driver object, SAFEARRAY service calls, the
CoInitializeEx / CoCreateInstance environment) is modelled as explicit
oracles recording the status codes and data those calls would return;
the Rust functions become pure Lean functions over those oracles, and
driver calls additionally produce an event trace so that claims about
call discipline (lock release, no retry, dispatch flags) are statable.

Machine integers: Rust `i32` values are carried as `Int`, with wrapping
arithmetic made explicit (`wrap32`, `i32_as_usize`) where the source can
overflow; `u16` tags and `u8` / `f32` payload bit patterns are carried
as `Nat`.  `f64` payloads are carried as raw bit patterns (`Nat`), which
is faithful because the source only copies them, never computes on them.
-/

set_option autoImplicit false

/-- S_OK, the COM success status (src/lib.rs line 23). -/
def S_OK : Int := 0

/-- DISPATCH_PROPERTYGET dispatch flag (src/lib.rs line 24). -/
def DISPATCH_PROPERTYGET : Nat := 2

/-- DISPATCH_METHOD dispatch flag (src/lib.rs line 25). -/
def DISPATCH_METHOD : Nat := 1

/-- VT_I4, VARIANT tag for a 32-bit integer (src/lib.rs line 27). -/
def VT_I4 : Nat := 3

/-- VT_R8, VARIANT tag for a double (src/lib.rs line 28). -/
def VT_R8 : Nat := 5

/-- VT_R4, VARIANT tag for a 32-bit float (src/lib.rs line 29). -/
def VT_R4 : Nat := 4

/-- VT_BSTR, VARIANT tag for a wide string (src/lib.rs line 30). -/
def VT_BSTR : Nat := 8

/-- VT_ARRAY, flag indicating a SAFEARRAY (src/lib.rs line 31). -/
def VT_ARRAY : Nat := 0x2000

/-- VT_UI1, VARIANT tag for an unsigned 8-bit integer (src/lib.rs line 32). -/
def VT_UI1 : Nat := 17

/-- Interpretation of an `Int` as a wrapping `i32` value: the unique
representative in `[-2^31, 2^31)` congruent mod `2^32`.  Models Rust
release-mode wrapping of `i32` arithmetic. -/
def wrap32 (x : Int) : Int := (x + 2 ^ 31) % 2 ^ 32 - 2 ^ 31

/-- Rust `as usize` on an `i32` value: sign-extension to 64 bits read as
unsigned, i.e. the representative of `x` mod `2^64` in `[0, 2^64)`. -/
def i32_as_usize (x : Int) : Nat := (x % 2 ^ 64).toNat

/-- Model of a SAFEARRAY handle together with the oracle answers the
driver gives for it: the status codes of `SafeArrayGetLBound`,
`SafeArrayGetUBound` and `SafeArrayAccessData`, the two bounds, and the
backing buffer.  `memBytes idx` (resp. `memF32 idx`) is the element at
logical index `idx` when the buffer is read as `u8` (resp. `f32` bit
patterns); the data pointer returned by `SafeArrayAccessData` points at
logical index `lbound`, so physical offset `i` reads logical index
`lbound + i`. -/
structure SAFEARRAY where
  hr_lb : Int
  hr_ub : Int
  hr_access : Int
  lbound : Int
  ubound : Int
  memBytes : Int → Nat
  memF32 : Int → Nat

/-- Model of a VARIANT (tagged union).  `vt` is the `u16` tag; the union
payload is modelled as one field per interpretation the source reads
(`lVal` for i32, `dblVal` for f64 bit pattern, `parray` for a SAFEARRAY
pointer, `bstrVal` for a BSTR pointer).  A null pointer is `none`; a
BSTR is its list of UTF-16 code units (`SysStringLen` is its length). -/
structure VARIANT where
  vt : Nat
  lVal : Int
  dblVal : Nat
  parray : Option SAFEARRAY
  bstrVal : Option (List Nat)

/-- VARIANT produced by `mem::zeroed()`: all-zero tag and payload, null
pointers. -/
def zeroed_variant : VARIANT :=
  { vt := 0, lVal := 0, dblVal := 0, parray := none, bstrVal := none }

/-- Error taxonomy of the library: one constructor per distinct
`anyhow!` message in src/lib.rs, carrying the data that message
interpolates. -/
inductive QErr where
  | coInitFailed (hr : Int)
  | coCreateFailed (hr : Int)
  | uuidParseFailed
  | getIdsOfNamesFailed (name : String) (hr : Int)
  | invokeFailed (name : String) (hr : Int)
  | wrongReturnType (member : String)
  | expectedByteArray (vt : Nat)
  | nullByteSafeArray
  | byteBoundsFailed
  | byteAccessFailed
  | expectedBstr (vt : Nat)
  | expectedF32Array (vt : Nat)
  | nullF32SafeArray
  | f32LBoundFailed
  | f32UBoundFailed
  | f32AccessFailed
  deriving DecidableEq

/-- Events of the SAFEARRAY service calls a conversion performs, in
order, each recording the status code the driver returned. -/
inductive SAEv where
  | getLBound (hr : Int)
  | getUBound (hr : Int)
  | accessData (hr : Int)
  | unaccessData
  deriving DecidableEq

/-- Embedding of `variant_to_byte_array` (src/lib.rs lines 300-329).
Checks `(vt & VT_ARRAY) == VT_ARRAY && (vt & VT_UI1) == VT_UI1`, rejects
a null SAFEARRAY pointer, queries both bounds, computes
`(ubound - lbound + 1) as usize` with i32 wrapping, locks the buffer,
copies `count` bytes, unlocks, and returns the copy.  Also returns the
trace of SAFEARRAY service calls made. -/
def variant_to_byte_array (var : VARIANT) :
    Except QErr (List Nat) × List SAEv :=
  if (var.vt &&& VT_ARRAY) ≠ VT_ARRAY ∨ (var.vt &&& VT_UI1) ≠ VT_UI1 then
    (Except.error (QErr.expectedByteArray var.vt), [])
  else
    match var.parray with
    | none => (Except.error QErr.nullByteSafeArray, [])
    | some psa =>
      let t1 := [SAEv.getLBound psa.hr_lb, SAEv.getUBound psa.hr_ub]
      if psa.hr_lb ≠ S_OK ∨ psa.hr_ub ≠ S_OK then
        (Except.error QErr.byteBoundsFailed, t1)
      else
        let count := i32_as_usize (wrap32 (psa.ubound - psa.lbound + 1))
        let t2 := t1 ++ [SAEv.accessData psa.hr_access]
        if psa.hr_access ≠ S_OK then
          (Except.error QErr.byteAccessFailed, t2)
        else
          (Except.ok ((List.range count).map fun i : Nat => psa.memBytes (psa.lbound + (i : Int))),
           t2 ++ [SAEv.unaccessData])

/-- Embedding of `variant_to_f32_array` (src/lib.rs lines 348-376).
Same protocol as the byte conversion but with the `VT_R4` element-tag
mask, `f32` elements, and separately checked bound queries (the source
checks `SafeArrayGetLBound` before calling `SafeArrayGetUBound`). -/
def variant_to_f32_array (var : VARIANT) :
    Except QErr (List Nat) × List SAEv :=
  if (var.vt &&& VT_ARRAY) ≠ VT_ARRAY ∨ (var.vt &&& VT_R4) ≠ VT_R4 then
    (Except.error (QErr.expectedF32Array var.vt), [])
  else
    match var.parray with
    | none => (Except.error QErr.nullF32SafeArray, [])
    | some psa =>
      if psa.hr_lb ≠ S_OK then
        (Except.error QErr.f32LBoundFailed, [SAEv.getLBound psa.hr_lb])
      else
        let t1 := [SAEv.getLBound psa.hr_lb, SAEv.getUBound psa.hr_ub]
        if psa.hr_ub ≠ S_OK then
          (Except.error QErr.f32UBoundFailed, t1)
        else
          let count := i32_as_usize (wrap32 (psa.ubound - psa.lbound + 1))
          let t2 := t1 ++ [SAEv.accessData psa.hr_access]
          if psa.hr_access ≠ S_OK then
            (Except.error QErr.f32AccessFailed, t2)
          else
            (Except.ok ((List.range count).map fun i : Nat => psa.memF32 (psa.lbound + (i : Int))),
             t2 ++ [SAEv.unaccessData])

/-- Lossy UTF-16 decoding (`String::from_utf16_lossy`): well-formed
surrogate pairs combine, unpaired surrogates become U+FFFD, everything
else passes through as a scalar value. -/
def utf16_lossy : List Nat → List Nat
  | [] => []
  | [u] =>
    if (0xD800 ≤ u ∧ u ≤ 0xDBFF) ∨ (0xDC00 ≤ u ∧ u ≤ 0xDFFF) then [0xFFFD] else [u]
  | u :: v :: rest =>
    if 0xD800 ≤ u ∧ u ≤ 0xDBFF then
      if 0xDC00 ≤ v ∧ v ≤ 0xDFFF then
        (0x10000 + (u - 0xD800) * 0x400 + (v - 0xDC00)) :: utf16_lossy rest
      else
        0xFFFD :: utf16_lossy (v :: rest)
    else if 0xDC00 ≤ u ∧ u ≤ 0xDFFF then
      0xFFFD :: utf16_lossy (v :: rest)
    else
      u :: utf16_lossy (v :: rest)

/-- Scalar-value list to a native string. -/
def scalars_to_string (l : List Nat) : String :=
  String.mk (l.map Char.ofNat)

/-- Embedding of `variant_to_bstr` (src/lib.rs lines 331-346).  Requires
`vt == VT_BSTR` exactly; a null BSTR pointer yields the empty string;
otherwise `SysStringLen` many code units are decoded lossily. -/
def variant_to_bstr (var : VARIANT) : Except QErr String :=
  if var.vt ≠ VT_BSTR then
    Except.error (QErr.expectedBstr var.vt)
  else
    match var.bstrVal with
    | none => Except.ok ""
    | some units => Except.ok (scalars_to_string (utf16_lossy units))

/-- Model of the winapi `GUID` struct (src/lib.rs line 6 import): a
32-bit field, two 16-bit fields and eight bytes, carried as `Nat`. -/
structure GUID where
  Data1 : Nat
  Data2 : Nat
  Data3 : Nat
  Data4 : List Nat
  deriving DecidableEq

/-- Value of one hex digit, or `none` for a non-hex character. -/
def hexVal (c : Char) : Option Nat :=
  if '0' ≤ c ∧ c ≤ '9' then some (c.toNat - 48)
  else if 'a' ≤ c ∧ c ≤ 'f' then some (c.toNat - 87)
  else if 'A' ≤ c ∧ c ≤ 'F' then some (c.toNat - 55)
  else none

/-- Pairs of hex digits to bytes; fails on a non-hex digit or an odd
count. -/
def hexBytes : List Char → Option (List Nat)
  | [] => some []
  | [_] => none
  | a :: b :: rest => do
    let x ← hexVal a
    let y ← hexVal b
    let tail ← hexBytes rest
    pure ((16 * x + y) :: tail)

/-- Is `c` ASCII whitespace?  (The CLSID literal holds none, so the
ASCII restriction of `str::trim` is immaterial here.) -/
def isAsciiWs (c : Char) : Bool :=
  c = ' ' || c = '\t' || c = '\n' || c = '\r'

/-- Model of `str::trim`: drops leading and trailing whitespace. -/
def rustTrim (s : String) : String :=
  String.mk ((((s.data.dropWhile isAsciiWs).reverse).dropWhile isAsciiWs).reverse)

/-- Strips one layer of surrounding braces, if present. -/
def stripBraces (l : List Char) : List Char :=
  if l.head? = some (Char.ofNat 123) ∧ l.getLast? = some (Char.ofNat 125) then
    (l.drop 1).dropLast
  else l

/-- Splits a character list at hyphens. -/
def splitHyphens : List Char → List (List Char)
  | [] => [[]]
  | c :: rest =>
    let r := splitHyphens rest
    if c = '-' then [] :: r
    else
      match r with
      | [] => [[c]]
      | g :: gs => (c :: g) :: gs

/-- Modelled from the spec: `uuid::Uuid::parse_str` (an external crate,
not part of src/), restricted to the hyphenated and braced-hyphenated
formats — the only ones this repository feeds it ("a 128-bit identifier
string").  Accepts `8-4-4-4-12` hex-digit groups, optionally inside
braces, and yields the sixteen bytes in order. -/
def uuid_parse_str (s : String) : Option (List Nat) :=
  let core := stripBraces s.data
  match splitHyphens core with
  | [p1, p2, p3, p4, p5] =>
    if p1.length = 8 ∧ p2.length = 4 ∧ p3.length = 4 ∧ p4.length = 4 ∧ p5.length = 12 then
      hexBytes (p1 ++ p2 ++ p3 ++ p4 ++ p5)
    else none
  | _ => none

/-- Embedding of `uuid_to_winapi_guid` (src/lib.rs lines 260-268): the
sixteen UUID bytes map to the GUID fields in big-endian order
(`from_be_bytes`). -/
def uuid_to_winapi_guid (b : List Nat) : GUID :=
  { Data1 := ((b.getD 0 0) <<< 24) + ((b.getD 1 0) <<< 16) + ((b.getD 2 0) <<< 8) + b.getD 3 0
    Data2 := ((b.getD 4 0) <<< 8) + b.getD 5 0
    Data3 := ((b.getD 6 0) <<< 8) + b.getD 7 0
    Data4 := [b.getD 8 0, b.getD 9 0, b.getD 10 0, b.getD 11 0,
              b.getD 12 0, b.getD 13 0, b.getD 14 0, b.getD 15 0] }

/-- Embedding of `get_qwqng_clsid` (src/lib.rs lines 254-258): parses
the hardcoded vendor CLSID string and converts it to a winapi GUID. -/
def get_qwqng_clsid : Option GUID :=
  let clsid_str := "\x7bD7A1BFCF-9A30-45AF-A5E4-2CAF0A344938\x7d"
  (uuid_parse_str (rustTrim clsid_str)).map fun u => uuid_to_winapi_guid u

/-- Oracle for the driver's `IDispatch` object: the status code and
dispatch identifier `GetIDsOfNames` would return for each member name,
and the status code and result VARIANT `Invoke` would return for each
(dispid, dispatch flags, argument list) triple. -/
structure Driver where
  hrGetIDsOfNames : String → Int
  dispidOf : String → Int
  hrInvoke : Int → Nat → List VARIANT → Int
  invokeResult : Int → Nat → List VARIANT → VARIANT

/-- Events of the `IDispatch` calls an operation performs, in order,
each recording the status code the driver returned. -/
inductive DEv where
  | getIdsOfNames (name : String) (hr : Int)
  | invoke (dispid : Int) (flags : Nat) (args : List VARIANT) (hr : Int)

/-- Embedding of `get_dispid` (src/lib.rs lines 274-290): one
`GetIDsOfNames` call; on a non-success status the error carries the
offending member name and the raw status code. -/
def get_dispid (d : Driver) (name : String) : Except QErr Int × List DEv :=
  let hr := d.hrGetIDsOfNames name
  (if hr = S_OK then Except.ok (d.dispidOf name)
   else Except.error (QErr.getIdsOfNamesFailed name hr),
   [DEv.getIdsOfNames name hr])

/-- Model of the session object: `MedQrng` owns one `IDispatch` pointer,
modelled as the driver oracle behind it (src/lib.rs lines 47-49). -/
structure MedQrng where
  p_disp : Driver

/-- Embedding of `MedQrng::invoke_property` (src/lib.rs lines 165-190):
resolve the name, then one `Invoke` with `DISPATCH_PROPERTYGET`; on a
non-success status the error carries the member name and the raw status
code. -/
def MedQrng.invoke_property (q : MedQrng) (name : String) (args : List VARIANT) :
    Except QErr VARIANT × List DEv :=
  match get_dispid q.p_disp name with
  | (Except.error e, tr) => (Except.error e, tr)
  | (Except.ok dispid, tr) =>
    let hr := q.p_disp.hrInvoke dispid DISPATCH_PROPERTYGET args
    (if hr = S_OK then Except.ok (q.p_disp.invokeResult dispid DISPATCH_PROPERTYGET args)
     else Except.error (QErr.invokeFailed name hr),
     tr ++ [DEv.invoke dispid DISPATCH_PROPERTYGET args hr])

/-- Embedding of `MedQrng::invoke_method_return` (src/lib.rs lines
212-237): like `invoke_property` but with `DISPATCH_METHOD`. -/
def MedQrng.invoke_method_return (q : MedQrng) (name : String) (args : List VARIANT) :
    Except QErr VARIANT × List DEv :=
  match get_dispid q.p_disp name with
  | (Except.error e, tr) => (Except.error e, tr)
  | (Except.ok dispid, tr) =>
    let hr := q.p_disp.hrInvoke dispid DISPATCH_METHOD args
    (if hr = S_OK then Except.ok (q.p_disp.invokeResult dispid DISPATCH_METHOD args)
     else Except.error (QErr.invokeFailed name hr),
     tr ++ [DEv.invoke dispid DISPATCH_METHOD args hr])

/-- The single-i32-argument VARIANT built by
`invoke_property_with_i32_arg` and `invoke_method_with_i32_arg`
(src/lib.rs lines 194-198 and 241-245): `mem::zeroed()` then
`vt := VT_I4` and `lVal := arg`. -/
def i32_arg_variant (arg : Int) : VARIANT :=
  { zeroed_variant with vt := VT_I4, lVal := arg }

/-- Embedding of `MedQrng::invoke_property_with_i32_arg` (src/lib.rs
lines 193-200). -/
def MedQrng.invoke_property_with_i32_arg (q : MedQrng) (name : String) (arg : Int) :
    Except QErr VARIANT × List DEv :=
  q.invoke_property name [i32_arg_variant arg]

/-- Embedding of `MedQrng::invoke_method_with_i32_arg` (src/lib.rs lines
240-247). -/
def MedQrng.invoke_method_with_i32_arg (q : MedQrng) (name : String) (arg : Int) :
    Except QErr VARIANT × List DEv :=
  q.invoke_method_return name [i32_arg_variant arg]

/-- Environment oracle for session creation: the status codes
`CoInitializeEx` and `CoCreateInstance` would return, and the driver
object creation would yield.  The apartment is entered exactly when
`CoInitializeEx` returns `S_OK`. -/
structure ComWorld where
  hrCoInitializeEx : Int
  hrCoCreateInstance : Int
  disp : Driver

/-- Embedding of `MedQrng::new` (src/lib.rs lines 53-74).  The second
component is the net apartment-entry count at return: `CoInitializeEx`
success contributes `+1` and each `CoUninitialize` call `-1`.  The
source returns early via `?` on CLSID parse failure without
`CoUninitialize` (a path shown unreachable below), and calls
`CoUninitialize` before returning the `CoCreateInstance` error. -/
def MedQrng.new (w : ComWorld) : Except QErr MedQrng × Int :=
  if w.hrCoInitializeEx ≠ S_OK then
    (Except.error (QErr.coInitFailed w.hrCoInitializeEx), 0)
  else
    match get_qwqng_clsid with
    | none => (Except.error QErr.uuidParseFailed, 1)
    | some _clsid =>
      if w.hrCoCreateInstance ≠ S_OK then
        (Except.error (QErr.coCreateFailed w.hrCoCreateInstance), 1 - 1)
      else
        (Except.ok { p_disp := w.disp }, 1)

/-- Embedding of `MedQrng::rand_int32` (src/lib.rs lines 77-86). -/
def MedQrng.rand_int32 (q : MedQrng) : Except QErr Int × List DEv :=
  match q.invoke_property "RandInt32" [] with
  | (Except.error e, tr) => (Except.error e, tr)
  | (Except.ok var, tr) =>
    (if var.vt = VT_I4 then Except.ok var.lVal
     else Except.error (QErr.wrongReturnType "RandInt32"), tr)

/-- Embedding of `MedQrng::rand_uniform` (src/lib.rs lines 89-98); the
double payload is its bit pattern. -/
def MedQrng.rand_uniform (q : MedQrng) : Except QErr Nat × List DEv :=
  match q.invoke_property "RandUniform" [] with
  | (Except.error e, tr) => (Except.error e, tr)
  | (Except.ok var, tr) =>
    (if var.vt = VT_R8 then Except.ok var.dblVal
     else Except.error (QErr.wrongReturnType "RandUniform"), tr)

/-- Embedding of `MedQrng::rand_normal` (src/lib.rs lines 101-110). -/
def MedQrng.rand_normal (q : MedQrng) : Except QErr Nat × List DEv :=
  match q.invoke_property "RandNormal" [] with
  | (Except.error e, tr) => (Except.error e, tr)
  | (Except.ok var, tr) =>
    (if var.vt = VT_R8 then Except.ok var.dblVal
     else Except.error (QErr.wrongReturnType "RandNormal"), tr)

/-- Embedding of `MedQrng::rand_bytes` (src/lib.rs lines 114-117):
property get of `RandBytes` with the length as single i32 argument,
then byte-array decoding.  Returns the dispatch trace and the SAFEARRAY
trace. -/
def MedQrng.rand_bytes (q : MedQrng) (length : Int) :
    Except QErr (List Nat) × List DEv × List SAEv :=
  match q.invoke_property_with_i32_arg "RandBytes" length with
  | (Except.error e, tr) => (Except.error e, tr, [])
  | (Except.ok var, tr) =>
    let r := variant_to_byte_array var
    (r.1, tr, r.2)

/-- Embedding of `MedQrng::device_id` (src/lib.rs lines 120-123). -/
def MedQrng.device_id (q : MedQrng) : Except QErr String × List DEv :=
  match q.invoke_property "DeviceId" [] with
  | (Except.error e, tr) => (Except.error e, tr)
  | (Except.ok var, tr) => (variant_to_bstr var, tr)

/-- Embedding of `MedQrng::runtime_info` (src/lib.rs lines 126-129). -/
def MedQrng.runtime_info (q : MedQrng) :
    Except QErr (List Nat) × List DEv × List SAEv :=
  match q.invoke_property "RuntimeInfo" [] with
  | (Except.error e, tr) => (Except.error e, tr, [])
  | (Except.ok var, tr) =>
    let r := variant_to_f32_array var
    (r.1, tr, r.2)

/-- Embedding of `MedQrng::diagnostics` (src/lib.rs lines 133-136):
method call (not property get) of `Diagnostics` with the code as single
i32 argument, then byte-array decoding. -/
def MedQrng.diagnostics (q : MedQrng) (dx_code : Int) :
    Except QErr (List Nat) × List DEv × List SAEv :=
  match q.invoke_method_with_i32_arg "Diagnostics" dx_code with
  | (Except.error e, tr) => (Except.error e, tr, [])
  | (Except.ok var, tr) =>
    let r := variant_to_byte_array var
    (r.1, tr, r.2)

/-- Number of successful lock acquisitions (`SafeArrayAccessData`
returning `S_OK`) in a SAFEARRAY trace. -/
def lockAcquires (tr : List SAEv) : Nat :=
  tr.countP fun e =>
    match e with
    | SAEv.accessData hr => decide (hr = S_OK)
    | _ => false

/-- Number of lock releases (`SafeArrayUnaccessData` calls) in a
SAFEARRAY trace. -/
def lockReleases (tr : List SAEv) : Nat :=
  tr.countP fun e =>
    match e with
    | SAEv.unaccessData => true
    | _ => false

/-- Driver oracle on which every call succeeds with a zeroed VARIANT. -/
def drv0 : Driver :=
  { hrGetIDsOfNames := fun _ => 0, dispidOf := fun _ => 7,
    hrInvoke := fun _ _ _ => 0, invokeResult := fun _ _ _ => zeroed_variant }

/-- A SAFEARRAY oracle with bounds `[0, 2]` and all queries succeeding;
byte element at logical index `i` is `5 + i`, float element is
`100 + i`. -/
def psa_ok : SAFEARRAY :=
  { hr_lb := 0, hr_ub := 0, hr_access := 0, lbound := 0, ubound := 2,
    memBytes := fun i => (5 + i).toNat, memF32 := fun i => (100 + i).toNat }

/-- VARIANT tagged `0x2013` = VT_ARRAY with element tag VT_UI4 — not the
byte-array tag `0x2011`, yet its bits contain the VT_UI1 mask. -/
def var_ui4_array : VARIANT :=
  { vt := 0x2013, lVal := 0, dblVal := 0, parray := some psa_ok, bstrVal := none }

/-- VARIANT whose tag `0x2015` contains the VT_ARRAY, VT_UI1 and VT_R4
masks simultaneously. -/
def var_mixed_array : VARIANT :=
  { vt := 0x2015, lVal := 0, dblVal := 0, parray := some psa_ok, bstrVal := none }

/-- VARIANT with a correct byte-array tag but a null SAFEARRAY
pointer. -/
def var_null_array : VARIANT :=
  { vt := 0x2015, lVal := 0, dblVal := 0, parray := none, bstrVal := none }

/-- A SAFEARRAY oracle whose bounds span the whole i32 range, so the
element count `ubound - lbound + 1 = 2^32` overflows i32. -/
def psa_overflow : SAFEARRAY :=
  { hr_lb := 0, hr_ub := 0, hr_access := 0,
    lbound := -2147483648, ubound := 2147483647,
    memBytes := fun i => (5 + i).toNat, memF32 := fun i => (100 + i).toNat }

/-- Byte-array-tagged VARIANT over `psa_overflow`. -/
def var_byte_overflow : VARIANT :=
  { vt := 0x2011, lVal := 0, dblVal := 0, parray := some psa_overflow, bstrVal := none }

/-- VT_I4-tagged VARIANT with payload 42. -/
def var_i4_42 : VARIANT := { zeroed_variant with vt := VT_I4, lVal := 42 }

/-- VT_R8-tagged VARIANT whose double payload has the bit pattern of
1.0. -/
def var_r8_one : VARIANT := { zeroed_variant with vt := VT_R8, dblVal := 4607182418800017408 }

/-- VT_BSTR-tagged VARIANT with a null string handle. -/
def var_bstr_null : VARIANT := { zeroed_variant with vt := VT_BSTR }

/-- Driver on which member resolution and invocation succeed;
`RandInt32` resolves to dispid 1 and yields `var_i4_42`, the other
members yield `var_r8_one`. -/
def drv_typed : Driver :=
  { hrGetIDsOfNames := fun _ => 0,
    dispidOf := fun name => if name = "RandInt32" then 1 else 2,
    hrInvoke := fun _ _ _ => 0,
    invokeResult := fun dispid _ _ => if dispid = 1 then var_i4_42 else var_r8_one }

/-- Session over `drv_typed`. -/
def q_typed : MedQrng := { p_disp := drv_typed }

/-- Driver whose every invocation yields a null BSTR VARIANT. -/
def drv_bstr : Driver :=
  { hrGetIDsOfNames := fun _ => 0, dispidOf := fun _ => 4,
    hrInvoke := fun _ _ _ => 0, invokeResult := fun _ _ _ => var_bstr_null }

/-- Session over `drv_bstr`. -/
def q_bstr : MedQrng := { p_disp := drv_bstr }

/-- Driver on which name resolution always fails with status `-1`. -/
def drv_ids_fail : Driver :=
  { hrGetIDsOfNames := fun _ => -1, dispidOf := fun _ => 0,
    hrInvoke := fun _ _ _ => 0, invokeResult := fun _ _ _ => zeroed_variant }

/-- Driver on which resolution succeeds but every invocation fails with
status `-5`. -/
def drv_invoke_fail : Driver :=
  { hrGetIDsOfNames := fun _ => 0, dispidOf := fun _ => 9,
    hrInvoke := fun _ _ _ => -5, invokeResult := fun _ _ _ => zeroed_variant }

/-- Session over `drv_invoke_fail`. -/
def q_invoke_fail : MedQrng := { p_disp := drv_invoke_fail }

/-- Environment oracle on which apartment entry succeeds and object
creation fails with status 1. -/
def w_create_fail : ComWorld :=
  { hrCoInitializeEx := 0, hrCoCreateInstance := 1, disp := drv0 }

/-- Evaluation of the hardcoded CLSID parse; shared by several proofs
below. -/
theorem clsid_eval :
    get_qwqng_clsid =
      some { Data1 := 0xD7A1BFCF, Data2 := 0x9A30, Data3 := 0x45AF,
             Data4 := [0xA5, 0xE4, 0x2C, 0xAF, 0x0A, 0x34, 0x49, 0x38] } := by
  rfl

/-- Characterization of `invoke_property` when name resolution
succeeds: exactly one resolution call and one `DISPATCH_PROPERTYGET`
invocation, whose status decides the outcome. -/
theorem invoke_property_eq_of_resolve (q : MedQrng) (name : String) (args : List VARIANT)
    (h1 : q.p_disp.hrGetIDsOfNames name = S_OK) :
    q.invoke_property name args =
      (if q.p_disp.hrInvoke (q.p_disp.dispidOf name) DISPATCH_PROPERTYGET args = S_OK then
         Except.ok (q.p_disp.invokeResult (q.p_disp.dispidOf name) DISPATCH_PROPERTYGET args)
       else
         Except.error (QErr.invokeFailed name
           (q.p_disp.hrInvoke (q.p_disp.dispidOf name) DISPATCH_PROPERTYGET args)),
       [DEv.getIdsOfNames name S_OK,
        DEv.invoke (q.p_disp.dispidOf name) DISPATCH_PROPERTYGET args
          (q.p_disp.hrInvoke (q.p_disp.dispidOf name) DISPATCH_PROPERTYGET args)]) := by
  simp [MedQrng.invoke_property, get_dispid, h1]

/-- Characterization of `invoke_method_return` when name resolution
succeeds. -/
theorem invoke_method_return_eq_of_resolve (q : MedQrng) (name : String) (args : List VARIANT)
    (h1 : q.p_disp.hrGetIDsOfNames name = S_OK) :
    q.invoke_method_return name args =
      (if q.p_disp.hrInvoke (q.p_disp.dispidOf name) DISPATCH_METHOD args = S_OK then
         Except.ok (q.p_disp.invokeResult (q.p_disp.dispidOf name) DISPATCH_METHOD args)
       else
         Except.error (QErr.invokeFailed name
           (q.p_disp.hrInvoke (q.p_disp.dispidOf name) DISPATCH_METHOD args)),
       [DEv.getIdsOfNames name S_OK,
        DEv.invoke (q.p_disp.dispidOf name) DISPATCH_METHOD args
          (q.p_disp.hrInvoke (q.p_disp.dispidOf name) DISPATCH_METHOD args)]) := by
  simp [MedQrng.invoke_method_return, get_dispid, h1]

/-- Characterization of `variant_to_byte_array` when the tag mask
passes, the pointer is non-null and all SAFEARRAY calls succeed. -/
theorem variant_to_byte_array_ok (v : VARIANT) (psa : SAFEARRAY)
    (h1 : (v.vt &&& VT_ARRAY) = VT_ARRAY) (h2 : (v.vt &&& VT_UI1) = VT_UI1)
    (hpa : v.parray = some psa)
    (hlb : psa.hr_lb = S_OK) (hub : psa.hr_ub = S_OK) (hacc : psa.hr_access = S_OK) :
    variant_to_byte_array v =
      (Except.ok ((List.range (i32_as_usize (wrap32 (psa.ubound - psa.lbound + 1)))).map
         fun i : Nat => psa.memBytes (psa.lbound + (i : Int))),
       [SAEv.getLBound S_OK, SAEv.getUBound S_OK, SAEv.accessData S_OK, SAEv.unaccessData]) := by
  unfold variant_to_byte_array
  rw [hpa]
  simp [h1, h2, hlb, hub, hacc]

/-- Characterization of `variant_to_f32_array` in the all-success
case. -/
theorem variant_to_f32_array_ok (v : VARIANT) (psa : SAFEARRAY)
    (h1 : (v.vt &&& VT_ARRAY) = VT_ARRAY) (h2 : (v.vt &&& VT_R4) = VT_R4)
    (hpa : v.parray = some psa)
    (hlb : psa.hr_lb = S_OK) (hub : psa.hr_ub = S_OK) (hacc : psa.hr_access = S_OK) :
    variant_to_f32_array v =
      (Except.ok ((List.range (i32_as_usize (wrap32 (psa.ubound - psa.lbound + 1)))).map
         fun i : Nat => psa.memF32 (psa.lbound + (i : Int))),
       [SAEv.getLBound S_OK, SAEv.getUBound S_OK, SAEv.accessData S_OK, SAEv.unaccessData]) := by
  unfold variant_to_f32_array
  rw [hpa]
  simp [h1, h2, hlb, hub, hacc]

/-- C9: the class identifier the session resolves is the fixed vendor
identifier D7A1BFCF-9A30-45AF-A5E4-2CAF0A344938: `get_qwqng_clsid`
succeeds and returns the GUID with Data1 = 0xD7A1BFCF, Data2 = 0x9A30,
Data3 = 0x45AF, Data4 = [A5 E4 2C AF 0A 34 49 38], i.e.
`uuid_to_winapi_guid` lays the parsed bytes out big-endian. -/
theorem qwqng_clsid_is_vendor_guid :
    get_qwqng_clsid =
      some { Data1 := 0xD7A1BFCF, Data2 := 0x9A30, Data3 := 0x45AF,
             Data4 := [0xA5, 0xE4, 0x2C, 0xAF, 0x0A, 0x34, 0x49, 0x38] } :=
  clsid_eval

/-- C1 counterexample: the claim is false as stated.  The VARIANT
`var_ui4_array` is tagged `0x2013` (VT_ARRAY with element tag VT_UI4),
which differs from the required byte-array tag VT_ARRAY ||| VT_UI1 =
0x2011, yet `variant_to_byte_array` does not fail with UnexpectedType:
its bitmask check `(vt & VT_UI1) == VT_UI1` accepts every tag whose bits
contain VT_UI1, and the conversion succeeds. -/
theorem byte_array_accepts_foreign_tag :
    var_ui4_array.vt ≠ (VT_ARRAY ||| VT_UI1) ∧
    (variant_to_byte_array var_ui4_array).1 = Except.ok [5, 6, 7] := by
  exact ⟨by decide, rfl⟩

/-- C1 (amended): the conversions reject by bitmask, not tag equality:
`variant_to_byte_array` fails with the UnexpectedType error (before
reading any payload — no SAFEARRAY call is made) exactly on tags whose
bits fail to contain the VT_ARRAY mask or the VT_UI1 mask;
`variant_to_f32_array` likewise with the VT_R4 mask; `variant_to_bstr`
rejects any tag different from VT_BSTR. -/
theorem tag_mask_mismatch_rejected :
    (∀ v : VARIANT, (v.vt &&& VT_ARRAY) ≠ VT_ARRAY ∨ (v.vt &&& VT_UI1) ≠ VT_UI1 →
      variant_to_byte_array v = (Except.error (QErr.expectedByteArray v.vt), [])) ∧
    (∀ v : VARIANT, (v.vt &&& VT_ARRAY) ≠ VT_ARRAY ∨ (v.vt &&& VT_R4) ≠ VT_R4 →
      variant_to_f32_array v = (Except.error (QErr.expectedF32Array v.vt), [])) ∧
    (∀ v : VARIANT, v.vt ≠ VT_BSTR →
      variant_to_bstr v = Except.error (QErr.expectedBstr v.vt)) := by
  refine ⟨fun v h => ?_, fun v h => ?_, fun v h => ?_⟩
  · unfold variant_to_byte_array
    rw [if_pos h]
  · unfold variant_to_f32_array
    rw [if_pos h]
  · unfold variant_to_bstr
    rw [if_pos h]

/-- Witness for the amended C1 at the zeroed VARIANT (tag 0). -/
theorem tag_mask_mismatch_rejected_witness :
    variant_to_byte_array zeroed_variant = (Except.error (QErr.expectedByteArray 0), []) ∧
    variant_to_f32_array zeroed_variant = (Except.error (QErr.expectedF32Array 0), []) ∧
    variant_to_bstr zeroed_variant = Except.error (QErr.expectedBstr 0) :=
  ⟨tag_mask_mismatch_rejected.1 zeroed_variant (by decide),
   tag_mask_mismatch_rejected.2.1 zeroed_variant (by decide),
   tag_mask_mismatch_rejected.2.2 zeroed_variant (by decide)⟩

/-- C2: if session creation fails after the COM apartment has been
entered (`CoInitializeEx` returned S_OK), the entry is unwound before
`MedQrng::new` returns the error: the net apartment-entry count at
return is 0, so a failed creation leaves no residual apartment entry
for a subsequent open attempt to observe. -/
theorem new_failure_unwinds_apartment (w : ComWorld) (e : QErr)
    (hinit : w.hrCoInitializeEx = S_OK)
    (hfail : (MedQrng.new w).1 = Except.error e) :
    (MedQrng.new w).2 = 0 := by
  unfold MedQrng.new at hfail ⊢
  rw [clsid_eval] at hfail ⊢
  by_cases hc : w.hrCoCreateInstance = S_OK
  · simp [hinit, hc] at hfail
  · simp [hinit, hc]

/-- Witness for C2: apartment entry succeeds, object creation fails
with status 1; the net apartment count at return is 0. -/
theorem new_failure_unwinds_apartment_witness :
    (MedQrng.new w_create_fail).2 = 0 :=
  new_failure_unwinds_apartment w_create_fail (QErr.coCreateFailed 1) rfl rfl

/-- C3 counterexample: the claim is false as stated.  Over the
SAFEARRAY `psa_overflow`, whose successful bound queries give
L = -2^31 and U = 2^31 - 1 (so U ≥ L and U - L + 1 = 2^32), the decoded
byte array is empty rather than of length U - L + 1: the count
`(ubound - lbound + 1) as usize` is computed in wrapping i32 arithmetic
and 2^32 wraps to 0. -/
theorem byte_array_count_overflow :
    psa_overflow.lbound ≤ psa_overflow.ubound ∧
    psa_overflow.ubound - psa_overflow.lbound + 1 = 4294967296 ∧
    (variant_to_byte_array var_byte_overflow).1 = Except.ok [] := by
  exact ⟨by decide, by decide, rfl⟩

/-- C3 (amended): for every array handle with lower bound L and upper
bound U where U ≥ L and the element count U - L + 1 fits in i32
(U - L + 1 < 2^31), whose bound queries and access lock succeed, the
decoded array (byte or float) has length exactly U - L + 1 and
preserves backing-buffer order: element i of the result is the buffer
element at logical index L + i. -/
theorem array_decode_length_and_order (v : VARIANT) (psa : SAFEARRAY) (L U : Int)
    (hpa : v.parray = some psa) (hL : psa.lbound = L) (hU : psa.ubound = U)
    (hle : L ≤ U) (hsmall : U - L + 1 < 2 ^ 31)
    (hlb : psa.hr_lb = S_OK) (hub : psa.hr_ub = S_OK) (hacc : psa.hr_access = S_OK) :
    ((v.vt &&& VT_ARRAY) = VT_ARRAY → (v.vt &&& VT_UI1) = VT_UI1 →
      ∃ l, (variant_to_byte_array v).1 = Except.ok l ∧
        l.length = (U - L + 1).toNat ∧
        ∀ i : Nat, i < l.length → l[i]? = some (psa.memBytes (L + i))) ∧
    ((v.vt &&& VT_ARRAY) = VT_ARRAY → (v.vt &&& VT_R4) = VT_R4 →
      ∃ l, (variant_to_f32_array v).1 = Except.ok l ∧
        l.length = (U - L + 1).toNat ∧
        ∀ i : Nat, i < l.length → l[i]? = some (psa.memF32 (L + i))) := by
  have hcount : i32_as_usize (wrap32 (psa.ubound - psa.lbound + 1)) = (U - L + 1).toNat := by
    rw [hL, hU]
    unfold wrap32 i32_as_usize
    omega
  constructor
  · intro h1 h2
    rw [variant_to_byte_array_ok v psa h1 h2 hpa hlb hub hacc]
    refine ⟨_, rfl, ?_, ?_⟩
    · rw [List.length_map, List.length_range]
      exact hcount
    · intro i hi
      rw [List.length_map, List.length_range, hcount] at hi
      rw [List.getElem?_map, List.getElem?_range (by rw [hcount]; exact hi),
        Option.map_some', hL]
  · intro h1 h2
    rw [variant_to_f32_array_ok v psa h1 h2 hpa hlb hub hacc]
    refine ⟨_, rfl, ?_, ?_⟩
    · rw [List.length_map, List.length_range]
      exact hcount
    · intro i hi
      rw [List.length_map, List.length_range, hcount] at hi
      rw [List.getElem?_map, List.getElem?_range (by rw [hcount]; exact hi),
        Option.map_some', hL]

/-- Witness for the amended C3 over `psa_ok` (bounds [0, 2]) through a
VARIANT whose tag contains both element masks. -/
theorem array_decode_length_and_order_witness :
    (∃ l, (variant_to_byte_array var_mixed_array).1 = Except.ok l ∧
       l.length = ((2 : Int) - 0 + 1).toNat ∧
       ∀ i : Nat, i < l.length → l[i]? = some (psa_ok.memBytes (0 + i))) ∧
    (∃ l, (variant_to_f32_array var_mixed_array).1 = Except.ok l ∧
       l.length = ((2 : Int) - 0 + 1).toNat ∧
       ∀ i : Nat, i < l.length → l[i]? = some (psa_ok.memF32 (0 + i))) :=
  ⟨(array_decode_length_and_order var_mixed_array psa_ok 0 2 rfl rfl rfl
      (by decide) (by decide) rfl rfl rfl).1 (by decide) (by decide),
   (array_decode_length_and_order var_mixed_array psa_ok 0 2 rfl rfl rfl
      (by decide) (by decide) rfl rfl rfl).2 (by decide) (by decide)⟩

/-- C4: in both array conversions the buffer lock is released exactly
once per conversion in which it was acquired (`SafeArrayAccessData`
succeeded), on the success path and on every failure path, and the lock
is never acquired more than once. -/
theorem array_lock_released_once (v : VARIANT) :
    (lockReleases (variant_to_byte_array v).2 = lockAcquires (variant_to_byte_array v).2 ∧
     lockAcquires (variant_to_byte_array v).2 ≤ 1) ∧
    (lockReleases (variant_to_f32_array v).2 = lockAcquires (variant_to_f32_array v).2 ∧
     lockAcquires (variant_to_f32_array v).2 ≤ 1) := by
  constructor
  · unfold variant_to_byte_array
    repeat' split
    all_goals simp_all [lockAcquires, lockReleases, List.countP_cons, List.countP_nil,
      List.countP_append]
  · unfold variant_to_f32_array
    repeat' split
    all_goals simp_all [lockAcquires, lockReleases, List.countP_cons, List.countP_nil,
      List.countP_append]

/-- C5: for every supported tag T, converting a tagged value with tag T
into the shape for T succeeds and yields the payload: `rand_int32` on a
VT_I4-tagged result returns its integer payload, `rand_uniform` and
`rand_normal` on a VT_R8-tagged result return its double payload. -/
theorem typed_getters_return_payload (q : MedQrng) :
    (∀ v : VARIANT, q.p_disp.hrGetIDsOfNames "RandInt32" = S_OK →
      q.p_disp.hrInvoke (q.p_disp.dispidOf "RandInt32") DISPATCH_PROPERTYGET [] = S_OK →
      q.p_disp.invokeResult (q.p_disp.dispidOf "RandInt32") DISPATCH_PROPERTYGET [] = v →
      v.vt = VT_I4 → (q.rand_int32).1 = Except.ok v.lVal) ∧
    (∀ v : VARIANT, q.p_disp.hrGetIDsOfNames "RandUniform" = S_OK →
      q.p_disp.hrInvoke (q.p_disp.dispidOf "RandUniform") DISPATCH_PROPERTYGET [] = S_OK →
      q.p_disp.invokeResult (q.p_disp.dispidOf "RandUniform") DISPATCH_PROPERTYGET [] = v →
      v.vt = VT_R8 → (q.rand_uniform).1 = Except.ok v.dblVal) ∧
    (∀ v : VARIANT, q.p_disp.hrGetIDsOfNames "RandNormal" = S_OK →
      q.p_disp.hrInvoke (q.p_disp.dispidOf "RandNormal") DISPATCH_PROPERTYGET [] = S_OK →
      q.p_disp.invokeResult (q.p_disp.dispidOf "RandNormal") DISPATCH_PROPERTYGET [] = v →
      v.vt = VT_R8 → (q.rand_normal).1 = Except.ok v.dblVal) := by
  refine ⟨fun v h1 h2 h3 h4 => ?_, fun v h1 h2 h3 h4 => ?_, fun v h1 h2 h3 h4 => ?_⟩
  · unfold MedQrng.rand_int32
    rw [invoke_property_eq_of_resolve q _ _ h1, if_pos h2]
    simp [h3, h4]
  · unfold MedQrng.rand_uniform
    rw [invoke_property_eq_of_resolve q _ _ h1, if_pos h2]
    simp [h3, h4]
  · unfold MedQrng.rand_normal
    rw [invoke_property_eq_of_resolve q _ _ h1, if_pos h2]
    simp [h3, h4]

/-- Witness for C5 over `drv_typed`, which answers `RandInt32` with a
VT_I4 payload 42 and the double getters with a VT_R8 payload. -/
theorem typed_getters_return_payload_witness :
    (q_typed.rand_int32).1 = Except.ok 42 ∧
    (q_typed.rand_uniform).1 = Except.ok 4607182418800017408 ∧
    (q_typed.rand_normal).1 = Except.ok 4607182418800017408 :=
  ⟨(typed_getters_return_payload q_typed).1 var_i4_42 rfl rfl rfl rfl,
   (typed_getters_return_payload q_typed).2.1 var_r8_one rfl rfl rfl rfl,
   (typed_getters_return_payload q_typed).2.2 var_r8_one rfl rfl rfl rfl⟩

/-- C6: a wide-string-tagged value with a null string handle converts to
the empty string without error, both directly through
`variant_to_bstr` and end-to-end through `device_id`. -/
theorem null_string_handle_decodes_empty (q : MedQrng) :
    (∀ v : VARIANT, v.vt = VT_BSTR → v.bstrVal = none →
      variant_to_bstr v = Except.ok "") ∧
    (∀ v : VARIANT, q.p_disp.hrGetIDsOfNames "DeviceId" = S_OK →
      q.p_disp.hrInvoke (q.p_disp.dispidOf "DeviceId") DISPATCH_PROPERTYGET [] = S_OK →
      q.p_disp.invokeResult (q.p_disp.dispidOf "DeviceId") DISPATCH_PROPERTYGET [] = v →
      v.vt = VT_BSTR → v.bstrVal = none → (q.device_id).1 = Except.ok "") := by
  have hb : ∀ v : VARIANT, v.vt = VT_BSTR → v.bstrVal = none →
      variant_to_bstr v = Except.ok "" := by
    intro v hv hn
    unfold variant_to_bstr
    rw [if_neg (by simp [hv]), hn]
  refine ⟨hb, fun v h1 h2 h3 h4 h5 => ?_⟩
  unfold MedQrng.device_id
  rw [invoke_property_eq_of_resolve q _ _ h1, if_pos h2]
  simp [h3, hb v h4 h5]

/-- Witness for C6 over `drv_bstr`, whose `DeviceId` invocation yields a
null-handle BSTR VARIANT. -/
theorem null_string_handle_decodes_empty_witness :
    variant_to_bstr var_bstr_null = Except.ok "" ∧
    (q_bstr.device_id).1 = Except.ok "" :=
  ⟨(null_string_handle_decodes_empty q_bstr).1 var_bstr_null rfl rfl,
   (null_string_handle_decodes_empty q_bstr).2 var_bstr_null rfl rfl rfl rfl rfl⟩

/-- C7: every name-resolution or invocation failure is returned as an
error carrying the offending member name and the raw driver status
code, with no retry: `get_dispid` makes exactly one resolution call and
surfaces its status; `invoke_property` and `invoke_method_return` make
exactly one resolution call and one invocation call, surfacing the
invocation status (the full call trace is part of each equality). -/
theorem dispatch_failures_surface_name_and_status (d : Driver) (q : MedQrng)
    (name : String) (args : List VARIANT) :
    (d.hrGetIDsOfNames name ≠ S_OK →
      get_dispid d name =
        (Except.error (QErr.getIdsOfNamesFailed name (d.hrGetIDsOfNames name)),
         [DEv.getIdsOfNames name (d.hrGetIDsOfNames name)])) ∧
    (q.p_disp.hrGetIDsOfNames name = S_OK →
      q.p_disp.hrInvoke (q.p_disp.dispidOf name) DISPATCH_PROPERTYGET args ≠ S_OK →
      q.invoke_property name args =
        (Except.error (QErr.invokeFailed name
           (q.p_disp.hrInvoke (q.p_disp.dispidOf name) DISPATCH_PROPERTYGET args)),
         [DEv.getIdsOfNames name S_OK,
          DEv.invoke (q.p_disp.dispidOf name) DISPATCH_PROPERTYGET args
            (q.p_disp.hrInvoke (q.p_disp.dispidOf name) DISPATCH_PROPERTYGET args)])) ∧
    (q.p_disp.hrGetIDsOfNames name = S_OK →
      q.p_disp.hrInvoke (q.p_disp.dispidOf name) DISPATCH_METHOD args ≠ S_OK →
      q.invoke_method_return name args =
        (Except.error (QErr.invokeFailed name
           (q.p_disp.hrInvoke (q.p_disp.dispidOf name) DISPATCH_METHOD args)),
         [DEv.getIdsOfNames name S_OK,
          DEv.invoke (q.p_disp.dispidOf name) DISPATCH_METHOD args
            (q.p_disp.hrInvoke (q.p_disp.dispidOf name) DISPATCH_METHOD args)])) := by
  refine ⟨fun h => ?_, fun h1 h2 => ?_, fun h1 h2 => ?_⟩
  · simp only [get_dispid]
    rw [if_neg h]
  · rw [invoke_property_eq_of_resolve q name args h1, if_neg h2]
  · rw [invoke_method_return_eq_of_resolve q name args h1, if_neg h2]

/-- Witness for C7 over `drv_ids_fail` (resolution status -1) and
`drv_invoke_fail` (invocation status -5). -/
theorem dispatch_failures_surface_name_and_status_witness :
    get_dispid drv_ids_fail "RandInt32" =
      (Except.error (QErr.getIdsOfNamesFailed "RandInt32" (-1)),
       [DEv.getIdsOfNames "RandInt32" (-1)]) ∧
    q_invoke_fail.invoke_property "RandBytes" [] =
      (Except.error (QErr.invokeFailed "RandBytes" (-5)),
       [DEv.getIdsOfNames "RandBytes" S_OK,
        DEv.invoke 9 DISPATCH_PROPERTYGET [] (-5)]) ∧
    q_invoke_fail.invoke_method_return "Clear" [] =
      (Except.error (QErr.invokeFailed "Clear" (-5)),
       [DEv.getIdsOfNames "Clear" S_OK,
        DEv.invoke 9 DISPATCH_METHOD [] (-5)]) :=
  ⟨(dispatch_failures_surface_name_and_status drv_ids_fail q_invoke_fail
      "RandInt32" []).1 (by decide),
   (dispatch_failures_surface_name_and_status drv_ids_fail q_invoke_fail
      "RandBytes" []).2.1 rfl (by decide),
   (dispatch_failures_surface_name_and_status drv_ids_fail q_invoke_fail
      "Clear" []).2.2 rfl (by decide)⟩

/-- C8: `rand_bytes length` performs one property-get dispatch passing
exactly one VT_I4-tagged value with the length as payload, and
`diagnostics code` performs one method-call dispatch (DISPATCH_METHOD,
not DISPATCH_PROPERTYGET) passing exactly one VT_I4-tagged value with
the code as payload. -/
theorem single_i32_argument_dispatch (q : MedQrng) (n : Int) :
    (i32_arg_variant n).vt = VT_I4 ∧ (i32_arg_variant n).lVal = n ∧
    (q.p_disp.hrGetIDsOfNames "RandBytes" = S_OK →
      (q.rand_bytes n).2.1 =
        [DEv.getIdsOfNames "RandBytes" S_OK,
         DEv.invoke (q.p_disp.dispidOf "RandBytes") DISPATCH_PROPERTYGET [i32_arg_variant n]
           (q.p_disp.hrInvoke (q.p_disp.dispidOf "RandBytes") DISPATCH_PROPERTYGET
             [i32_arg_variant n])]) ∧
    (q.p_disp.hrGetIDsOfNames "Diagnostics" = S_OK →
      (q.diagnostics n).2.1 =
        [DEv.getIdsOfNames "Diagnostics" S_OK,
         DEv.invoke (q.p_disp.dispidOf "Diagnostics") DISPATCH_METHOD [i32_arg_variant n]
           (q.p_disp.hrInvoke (q.p_disp.dispidOf "Diagnostics") DISPATCH_METHOD
             [i32_arg_variant n])]) := by
  refine ⟨rfl, rfl, fun h => ?_, fun h => ?_⟩
  · unfold MedQrng.rand_bytes MedQrng.invoke_property_with_i32_arg
    rw [invoke_property_eq_of_resolve q _ _ h]
    by_cases h2 : q.p_disp.hrInvoke (q.p_disp.dispidOf "RandBytes") DISPATCH_PROPERTYGET
        [i32_arg_variant n] = S_OK
    · rw [if_pos h2]
    · rw [if_neg h2]
  · unfold MedQrng.diagnostics MedQrng.invoke_method_with_i32_arg
    rw [invoke_method_return_eq_of_resolve q _ _ h]
    by_cases h2 : q.p_disp.hrInvoke (q.p_disp.dispidOf "Diagnostics") DISPATCH_METHOD
        [i32_arg_variant n] = S_OK
    · rw [if_pos h2]
    · rw [if_neg h2]

/-- Witness for C8 over `drv_invoke_fail` with length and code 10. -/
theorem single_i32_argument_dispatch_witness :
    (i32_arg_variant 10).vt = VT_I4 ∧ (i32_arg_variant 10).lVal = 10 ∧
    (q_invoke_fail.rand_bytes 10).2.1 =
      [DEv.getIdsOfNames "RandBytes" S_OK,
       DEv.invoke 9 DISPATCH_PROPERTYGET [i32_arg_variant 10] (-5)] ∧
    (q_invoke_fail.diagnostics 10).2.1 =
      [DEv.getIdsOfNames "Diagnostics" S_OK,
       DEv.invoke 9 DISPATCH_METHOD [i32_arg_variant 10] (-5)] :=
  ⟨(single_i32_argument_dispatch q_invoke_fail 10).1,
   (single_i32_argument_dispatch q_invoke_fail 10).2.1,
   (single_i32_argument_dispatch q_invoke_fail 10).2.2.1 rfl,
   (single_i32_argument_dispatch q_invoke_fail 10).2.2.2 rfl⟩

/-- C10: a value carrying the correct array tag but a null SAFEARRAY
handle makes the array conversions return an error (not an empty array)
with an empty SAFEARRAY call trace — no bound query or lock is
attempted — unlike string conversion, where a null handle yields the
empty string. -/
theorem null_array_handle_rejected :
    (∀ v : VARIANT, v.parray = none → (v.vt &&& VT_ARRAY) = VT_ARRAY →
      (v.vt &&& VT_UI1) = VT_UI1 →
      variant_to_byte_array v = (Except.error QErr.nullByteSafeArray, [])) ∧
    (∀ v : VARIANT, v.parray = none → (v.vt &&& VT_ARRAY) = VT_ARRAY →
      (v.vt &&& VT_R4) = VT_R4 →
      variant_to_f32_array v = (Except.error QErr.nullF32SafeArray, [])) ∧
    (∀ v : VARIANT, v.vt = VT_BSTR → v.bstrVal = none →
      variant_to_bstr v = Except.ok "") := by
  refine ⟨fun v hn h1 h2 => ?_, fun v hn h1 h2 => ?_, fun v hv hn => ?_⟩
  · unfold variant_to_byte_array
    rw [if_neg (by simp [h1, h2]), hn]
  · unfold variant_to_f32_array
    rw [if_neg (by simp [h1, h2]), hn]
  · unfold variant_to_bstr
    rw [if_neg (by simp [hv]), hn]

/-- Witness for C10 at a null-handle array VARIANT and a null-handle
BSTR VARIANT. -/
theorem null_array_handle_rejected_witness :
    variant_to_byte_array var_null_array = (Except.error QErr.nullByteSafeArray, []) ∧
    variant_to_f32_array var_null_array = (Except.error QErr.nullF32SafeArray, []) ∧
    variant_to_bstr var_bstr_null = Except.ok "" :=
  ⟨null_array_handle_rejected.1 var_null_array rfl (by decide) (by decide),
   null_array_handle_rejected.2.1 var_null_array rfl (by decide) (by decide),
   null_array_handle_rejected.2.2 var_bstr_null rfl rfl⟩
